import Mathlib

/-!
Shallow embedding of the CTAP-HID transport engine of virtual-fido-pi
(src/virtual_fido/ctap_hid.go).  Bytes are modelled as `Nat` values
(producers keep them below 256 with explicit `% 256`); Go machine
integers are `Nat` with `% 2 ^ w` where overflow matters; byte strings
are `List Nat`; a Go byte slice, whose capacity can exceed its length
(re-slicing `s[:hi]` is bounds-checked against the capacity, not the
length), is a backing list together with a visible length.  Go `panic`
is `Except RuntimeError`.
-/

namespace VirtualFido

set_option maxRecDepth 100000

/-- Constant `CTAPHID_BROADCAST_CHANNEL` from ctap_hid.go. -/
def CTAPHID_BROADCAST_CHANNEL : Nat := 0xFFFFFFFF

/-- CTAP-HID command byte codes from ctap_hid.go. -/
def CTAPHID_COMMAND_MSG : Nat := 0x83

def CTAPHID_COMMAND_CBOR : Nat := 0x90

def CTAPHID_COMMAND_INIT : Nat := 0x86

def CTAPHID_COMMAND_PING : Nat := 0x81

def CTAPHID_COMMAND_CANCEL : Nat := 0x91

def CTAPHID_COMMAND_ERROR : Nat := 0xBF

def CTAPHID_COMMAND_KEEPALIVE : Nat := 0xBB

def CTAPHID_COMMAND_WINK : Nat := 0x88

def CTAPHID_COMMAND_LOCK : Nat := 0x84

/-- CTAP-HID error codes from ctap_hid.go. -/
def CTAPHID_ERR_INVALID_COMMAND : Nat := 0x01

def CTAPHID_ERR_INVALID_PARAMETER : Nat := 0x02

def CTAPHID_ERR_INVALID_LENGTH : Nat := 0x03

def CTAPHID_ERR_INVALID_SEQUENCE : Nat := 0x04

def CTAPHID_ERR_MESSAGE_TIMEOUT : Nat := 0x05

def CTAPHID_ERR_CHANNEL_BUSY : Nat := 0x06

def CTAPHID_ERR_LOCK_REQUIRED : Nat := 0x0A

def CTAPHID_ERR_INVALID_CHANNEL : Nat := 0x0B

def CTAPHID_ERR_OTHER : Nat := 0x7F

/-- Constant `CTAPHIDSERVER_MAX_PACKET_SIZE` from ctap_hid.go. -/
def CTAPHIDSERVER_MAX_PACKET_SIZE : Nat := 64

/-- Modelled from the spec: the byte-order helper `toLE` on a 32-bit
channel id is not under src/; the spec fixes the layout as 4 bytes
little-endian. -/
def toLE32 (x : Nat) : List Nat :=
  [x % 256, x / 256 % 256, x / 65536 % 256, x / 16777216 % 256]

/-- Modelled from the spec: the byte-order helper `toBE` on a `uint16`
payload length is not under src/; the spec fixes the layout as 2 bytes
big-endian. -/
def toBE16 (x : Nat) : List Nat :=
  [x / 256 % 256, x % 256]

/-- Modelled from the spec: the helper `readLE` on a 32-bit channel id
is not under src/; it reads the leading 4 bytes little-endian. -/
def readLE32 (m : List Nat) : Nat :=
  m.getD 0 0 + 256 * m.getD 1 0 + 65536 * m.getD 2 0 + 16777216 * m.getD 3 0

/-- Modelled from the spec: the helper `pad` is not under src/; packets
are zero-padded to the fixed 64-byte report size. -/
def pad (l : List Nat) (n : Nat) : List Nat :=
  l ++ List.replicate (n - l.length) 0

/-- A Go byte slice: backing bytes from the slice start to its capacity,
plus the visible length.  Re-slicing `s[:hi]` is legal for `hi` up to
the capacity `data.length`, which is how `payload[:8]` in
`handleBroadcastMessage` can see bytes past the visible length. -/
structure GoSlice where
  data : List Nat
  len : Nat
deriving DecidableEq

/-- The bytes a reader of the slice sees (indices `0` to `len`). -/
def GoSlice.visible (s : GoSlice) : List Nat :=
  s.data.take s.len

/-- Wrap a fully-visible list as a slice (length = capacity). -/
def GoSlice.ofList (l : List Nat) : GoSlice :=
  ⟨l, l.length⟩

/-- Go re-slicing `s[:hi]`: in bounds iff `hi ≤ cap(s)`; out of bounds
is a runtime panic, modelled as `Except.error`. -/
def GoSlice.reslice (s : GoSlice) (hi : Nat) : Except Unit GoSlice :=
  if hi ≤ s.data.length then .ok ⟨s.data, hi⟩ else .error ()

/-- Structure `CTAPHIDMessageHeader` from ctap_hid.go. -/
structure CTAPHIDMessageHeader where
  ChannelID : Nat
  Command : Nat
  PayloadLength : Nat
deriving DecidableEq

/-- Function `newCTAPHIDMessageHeader` from ctap_hid.go: channel id (4 bytes LE),
command (1 byte), payload length (2 bytes BE, as Go `uint16`). -/
def newCTAPHIDMessageHeader (channelId command length0 : Nat) : List Nat :=
  toLE32 channelId ++ [command % 256] ++ toBE16 (length0 % 65536)

/-- The continuation-packet iterations of the loop in
`createResponsePackets` (sequence counter already at `0`).  The loop
consumes at least one payload byte per iteration, so fuel equal to the
remaining payload length makes the recursion structural without
changing the output. -/
def contPacketsFuel (channelId : Nat) : Nat → Nat → List Nat → List (List Nat)
  | _, _, [] => []
  | 0, _, _ => []
  | fuel + 1, sequence, payload =>
    let packet := toLE32 channelId ++ [sequence % 256]
    let bytesLeft := min (CTAPHIDSERVER_MAX_PACKET_SIZE - packet.length) payload.length
    pad (packet ++ payload.take bytesLeft) CTAPHIDSERVER_MAX_PACKET_SIZE ::
      contPacketsFuel channelId fuel (sequence + 1) (payload.drop bytesLeft)

/-- Function `createResponsePackets` from ctap_hid.go.  The Go loop runs while
payload remains; its first iteration (sequence = -1) emits the initial
packet with the message header, the rest are continuation packets with
sequence numbers 0, 1, ... -/
def createResponsePackets (channelId command : Nat) (payload : List Nat) : List (List Nat) :=
  match payload with
  | [] => []
  | _ :: _ =>
    let header := newCTAPHIDMessageHeader channelId command payload.length
    let bytesLeft := min (CTAPHIDSERVER_MAX_PACKET_SIZE - header.length) payload.length
    pad (header ++ payload.take bytesLeft) CTAPHIDSERVER_MAX_PACKET_SIZE ::
      contPacketsFuel channelId payload.length 0 (payload.drop bytesLeft)

/-- Function `ctapHidError` from ctap_hid.go (the log line is I/O only). -/
def ctapHidError (channelId err : Nat) : List (List Nat) :=
  createResponsePackets channelId CTAPHID_COMMAND_ERROR [err]

/-- Structure `CTAPHIDChannel` from ctap_hid.go.  The Go struct keeps
`inProgressHeader` and `inProgressPayload` as two pointers that are nil
or non-nil together; they are paired in one `Option` here. -/
structure CTAPHIDChannel where
  channelId : Nat
  inProgress : Option (CTAPHIDMessageHeader × List Nat)
deriving DecidableEq

/-- Function `NewCTAPHIDChannel` from ctap_hid.go. -/
def NewCTAPHIDChannel (channelId : Nat) : CTAPHIDChannel :=
  ⟨channelId, none⟩

/-- The framing state machine of `CTAPHIDChannel.handleMessage`
(ctap_hid.go lines 205-244), with the call to
`handleFinalizedMessage` abstracted into the returned finalized
(header, payload) pair.  In the single-packet branch the Go code
truncates with `payload[:payloadLength]`, a re-slice that keeps the
57-byte backing of `message[7:]`; in the continuation branch it
finalizes the appended buffer without truncation. -/
def CTAPHIDChannel.processPacket (channel : CTAPHIDChannel) (message : List Nat) :
    CTAPHIDChannel × Option (CTAPHIDMessageHeader × GoSlice) :=
  match channel.inProgress with
  | some (header, buffered) =>
    let payload := message.drop 5
    if (header.PayloadLength : Int) - buffered.length > (payload.length : Int) then
      ({ channel with inProgress := some (header, buffered ++ payload) }, none)
    else
      ({ channel with inProgress := none },
        some (header, GoSlice.ofList (buffered ++ payload)))
  | none =>
    let command := message.getD 4 0
    let payloadLength := 256 * message.getD 5 0 + message.getD 6 0
    let header : CTAPHIDMessageHeader := ⟨channel.channelId, command, payloadLength⟩
    let payload := message.drop 7
    if payloadLength > payload.length then
      ({ channel with inProgress := some (header, payload) }, none)
    else
      (channel, some (header, ⟨payload, payloadLength⟩))

/-- Structure `CTAPHIDServer` from ctap_hid.go.  The `sync.Map` of kill switches
is modelled by the set of stored ids, the buffered `responses` channel
by the queued packet list; the CTAP2/U2F processors are passed as
function arguments where needed. -/
structure CTAPHIDServer where
  maxChannelID : Nat
  channels : List (Nat × CTAPHIDChannel)
  responses : List (List Nat)
  waitingForResponses : List Nat
deriving DecidableEq

/-- Go map lookup `server.channels[channelId]`. -/
def lookupChannel : List (Nat × CTAPHIDChannel) → Nat → Option CTAPHIDChannel
  | [], _ => none
  | (k, c) :: rest, id => if k = id then some c else lookupChannel rest id

/-- Go map assignment `server.channels[id] = ch`. -/
def insertChannel : List (Nat × CTAPHIDChannel) → Nat → CTAPHIDChannel → List (Nat × CTAPHIDChannel)
  | [], id, ch => [(id, ch)]
  | (k, c) :: rest, id, ch =>
    if k = id then (id, ch) :: rest else (k, c) :: insertChannel rest id ch

/-- Function `newCTAPHIDServer` from ctap_hid.go: empty tables except the
always-present broadcast channel, `maxChannelID = 0`. -/
def newCTAPHIDServer : CTAPHIDServer :=
  ⟨0, [(CTAPHID_BROADCAST_CHANNEL, NewCTAPHIDChannel CTAPHID_BROADCAST_CHANNEL)], [], []⟩

/-- Function `sendResponse` from ctap_hid.go: each packet of the response is
pushed, in order, onto the single shared `responses` channel. -/
def CTAPHIDServer.sendResponse (server : CTAPHIDServer) (response : List (List Nat)) : CTAPHIDServer :=
  { server with responses := server.responses ++ response }

/-- Go runtime panics reachable in the dispatcher: the unguarded
`payload[:8]` and the `panic(...)` default branches of
`handleBroadcastMessage` / `handleDataMessage`. -/
inductive RuntimeError where
  | sliceBounds : RuntimeError
  | invalidBroadcastCommand : CTAPHIDMessageHeader → RuntimeError
  | invalidChannelCommand : CTAPHIDMessageHeader → RuntimeError
deriving DecidableEq

/-- Function `CTAPHIDChannel.handleBroadcastMessage` from ctap_hid.go.  INIT
reads `payload[:8]` (a capacity-bounded re-slice), allocates
`maxChannelID + 1` (Go `uint32` increment), registers the new channel
and serializes `CTAPHIDInitReponse` little-endian field by field:
Nonce, NewChannelID, ProtocolVersion=2, DeviceVersionMajor=0,
DeviceVersionMinor=0, DeviceVersionBuild=1, CapabilitiesFlags=0.
The default branch is a Go `panic`. -/
def handleBroadcastMessage (server : CTAPHIDServer) (header : CTAPHIDMessageHeader)
    (payload : GoSlice) : Except RuntimeError (CTAPHIDServer × List (List Nat)) :=
  if header.Command = CTAPHID_COMMAND_INIT then
    match payload.reslice 8 with
    | .error _ => .error .sliceBounds
    | .ok nonce =>
      let newChannelID := (server.maxChannelID + 1) % 2 ^ 32
      let initPayload := nonce.visible ++ toLE32 newChannelID ++ [2, 0, 0, 1, 0]
      let server1 : CTAPHIDServer :=
        { server with
            maxChannelID := (server.maxChannelID + 1) % 2 ^ 32,
            channels := insertChannel server.channels newChannelID (NewCTAPHIDChannel newChannelID) }
      .ok (server1, createResponsePackets CTAPHID_BROADCAST_CHANNEL CTAPHID_COMMAND_INIT initPayload)
  else if header.Command = CTAPHID_COMMAND_PING then
    .ok (server, createResponsePackets CTAPHID_BROADCAST_CHANNEL CTAPHID_COMMAND_PING payload.visible)
  else
    .error (.invalidBroadcastCommand header)

/-- Function `CTAPHIDChannel.handleDataMessage` from ctap_hid.go; `u2f` and
`ctap` are the external U2F / CTAP2 processors.  The default branch is
a Go `panic`. -/
def handleDataMessage (u2f ctap : List Nat → List Nat) (server : CTAPHIDServer)
    (header : CTAPHIDMessageHeader) (payload : GoSlice) :
    Except RuntimeError (CTAPHIDServer × List (List Nat)) :=
  if header.Command = CTAPHID_COMMAND_MSG then
    .ok (server, createResponsePackets header.ChannelID CTAPHID_COMMAND_MSG (u2f payload.visible))
  else if header.Command = CTAPHID_COMMAND_CBOR then
    .ok (server, createResponsePackets header.ChannelID CTAPHID_COMMAND_CBOR (ctap payload.visible))
  else if header.Command = CTAPHID_COMMAND_PING then
    .ok (server, createResponsePackets header.ChannelID CTAPHID_COMMAND_PING payload.visible)
  else
    .error (.invalidChannelCommand header)

/-- Function `CTAPHIDChannel.handleFinalizedMessage` from ctap_hid.go. -/
def handleFinalizedMessage (u2f ctap : List Nat → List Nat) (server : CTAPHIDServer)
    (channel : CTAPHIDChannel) (header : CTAPHIDMessageHeader) (payload : GoSlice) :
    Except RuntimeError (CTAPHIDServer × List (List Nat)) :=
  if channel.channelId = CTAPHID_BROADCAST_CHANNEL then
    handleBroadcastMessage server header payload
  else
    handleDataMessage u2f ctap server header payload

/-- Function `CTAPHIDChannel.handleMessage` from ctap_hid.go: the framing state
machine (`processPacket`) followed, on finalization, by the dispatcher. -/
def CTAPHIDChannel.handleMessage (u2f ctap : List Nat → List Nat) (server : CTAPHIDServer)
    (channel : CTAPHIDChannel) (message : List Nat) :
    Except RuntimeError (CTAPHIDServer × CTAPHIDChannel × Option (List (List Nat))) :=
  match channel.processPacket message with
  | (channel1, none) => .ok (server, channel1, none)
  | (channel1, some (header, payload)) =>
    match handleFinalizedMessage u2f ctap server channel1 header payload with
    | .error e => .error e
    | .ok (server1, response) => .ok (server1, channel1, some response)

/-- Function `CTAPHIDServer.handleMessage` from ctap_hid.go: look up the leading
channel id; unknown channel is answered with an InvalidChannel ERROR
packet; otherwise the packet goes to that channel (a Go pointer mutated
in place, modelled by writing the updated channel back). -/
def CTAPHIDServer.handleMessage (u2f ctap : List Nat → List Nat) (server : CTAPHIDServer)
    (message : List Nat) : Except RuntimeError CTAPHIDServer :=
  let channelId := readLE32 message
  match lookupChannel server.channels channelId with
  | none => .ok (server.sendResponse (ctapHidError channelId CTAPHID_ERR_INVALID_CHANNEL))
  | some channel =>
    match CTAPHIDChannel.handleMessage u2f ctap server channel message with
    | .error e => .error e
    | .ok (server1, channel1, response) =>
      let server2 := { server1 with channels := insertChannel server1.channels channelId channel1 }
      match response with
      | some r => .ok (server2.sendResponse r)
      | none => .ok server2

/-- Store a kill switch under `id` (`waitingForResponses.Store`): the
key is present afterwards. -/
def storeWaiting (waiting : List Nat) (id : Nat) : List Nat :=
  if id ∈ waiting then waiting else id :: waiting

/-- Function `getResponse` from ctap_hid.go when the `select` resolves through
the shared `responses` channel: store the kill switch, then take the
queue head (whichever logical request it belongs to); `none` when the
queue is empty and the wait would block.  This branch returns without
touching `waitingForResponses`. -/
def CTAPHIDServer.getResponseViaDelivery (server : CTAPHIDServer) (id : Nat) :
    Option (List Nat × CTAPHIDServer) :=
  let server1 := { server with waitingForResponses := storeWaiting server.waitingForResponses id }
  match server1.responses with
  | [] => none
  | r :: rest => some (r, { server1 with responses := rest })

/-- Function `getResponse` from ctap_hid.go when the `select` resolves through
the kill switch: store, then delete the entry and return nil. -/
def CTAPHIDServer.getResponseViaKillSwitch (server : CTAPHIDServer) (id : Nat) : CTAPHIDServer :=
  let server1 := { server with waitingForResponses := storeWaiting server.waitingForResponses id }
  { server1 with waitingForResponses := server1.waitingForResponses.filter (fun k => k ≠ id) }

/-- Feed raw reports to one channel's framing state machine in order,
collecting every message finalized at the dispatcher boundary. -/
def feedPacketsFinalized : CTAPHIDChannel → List (List Nat) →
    CTAPHIDChannel × List (CTAPHIDMessageHeader × GoSlice)
  | channel, [] => (channel, [])
  | channel, m :: ms =>
    let step := channel.processPacket m
    let rest := feedPacketsFinalized step.1 ms
    (rest.1, step.2.toList ++ rest.2)

/-- Stub external processor used in concrete scenarios (the claims
under study never depend on processor output). -/
def u2fStub : List Nat → List Nat := fun payload => payload

/-- Stub external CTAP2 processor for concrete scenarios. -/
def ctapStub : List Nat → List Nat := fun payload => payload

/-! Helper lemmas. -/

theorem mem_storeWaiting (waiting : List Nat) (id : Nat) : id ∈ storeWaiting waiting id := by
  unfold storeWaiting
  split
  · assumption
  · exact List.mem_cons_self id waiting

theorem lookupChannel_insertChannel (cs : List (Nat × CTAPHIDChannel)) (id : Nat)
    (ch : CTAPHIDChannel) : lookupChannel (insertChannel cs id ch) id = some ch := by
  induction cs with
  | nil => simp [insertChannel, lookupChannel]
  | cons p rest ih =>
    by_cases h : p.1 = id
    · simp [insertChannel, lookupChannel, h]
    · simp only [insertChannel, lookupChannel]
      rw [if_neg h]
      simp only [lookupChannel]
      rw [if_neg h]
      exact ih

theorem ctapHidError_eq (c e : Nat) :
    ctapHidError c e = [toLE32 c ++ [0xBF, 0, 1, e] ++ List.replicate 56 0] := by
  simp [ctapHidError, createResponsePackets, newCTAPHIDMessageHeader, toBE16, toLE32,
    contPacketsFuel, pad, CTAPHIDSERVER_MAX_PACKET_SIZE, CTAPHID_COMMAND_ERROR]

theorem take_min_length (p : List Nat) (n : Nat) : p.take (min n p.length) = p.take n := by
  rcases le_total p.length n with h | h
  · rw [min_eq_right h, List.take_of_length_le le_rfl, List.take_of_length_le h]
  · rw [min_eq_left h]

theorem drop_min_length (p : List Nat) (n : Nat) : p.drop (min n p.length) = p.drop n := by
  rcases le_total p.length n with h | h
  · rw [min_eq_right h, List.drop_of_length_le le_rfl, List.drop_of_length_le h]
  · rw [min_eq_left h]

theorem contPacketsFuel_nil (ch fuel s : Nat) : contPacketsFuel ch fuel s [] = [] := by
  cases fuel <;> rfl

theorem contPacketsFuel_cons (ch fuel s : Nat) (p : List Nat) (hne : p ≠ []) (hf : 1 ≤ fuel) :
    contPacketsFuel ch fuel s p =
      pad (toLE32 ch ++ [s % 256] ++ p.take 59) CTAPHIDSERVER_MAX_PACKET_SIZE ::
        contPacketsFuel ch (fuel - 1) (s + 1) (p.drop 59) := by
  rcases fuel with _ | f
  · omega
  · rcases p with _ | ⟨x, xs⟩
    · exact absurd rfl hne
    · simp only [contPacketsFuel]
      have h5 : (toLE32 ch ++ [s % 256]).length = 5 := by simp [toLE32]
      rw [h5]
      norm_num [CTAPHIDSERVER_MAX_PACKET_SIZE]
      rw [show (59 : Nat) ⊓ (xs.length + 1) = min 59 (x :: xs).length by simp,
        take_min_length, drop_min_length]
      exact ⟨rfl, rfl⟩

theorem contPacketsFuel_getElem (ch : Nat) :
    ∀ (i s fuel : Nat) (p : List Nat), p.length ≤ fuel → 59 * i < p.length →
      (contPacketsFuel ch fuel s p)[i]? =
        some (toLE32 ch ++ [(s + i) % 256] ++ (p.drop (59 * i)).take 59 ++
          List.replicate (64 - (5 + min 59 (p.length - 59 * i))) 0) := by
  intro i
  induction i with
  | zero =>
    intro s fuel p hf hi
    have hne : p ≠ [] := by
      intro h
      rw [h] at hi
      simp at hi
    rw [contPacketsFuel_cons ch fuel s p hne (by omega)]
    rw [List.getElem?_cons_zero]
    congr 1
    simp [pad, toLE32, CTAPHIDSERVER_MAX_PACKET_SIZE, List.append_assoc]
    omega
  | succ i ih =>
    intro s fuel p hf hi
    have hgt : 59 < p.length := by
      have : 59 * 1 ≤ 59 * (i + 1) := Nat.mul_le_mul_left 59 (by omega)
      omega
    have hne : p ≠ [] := by
      intro h
      rw [h] at hgt
      simp at hgt
    rw [contPacketsFuel_cons ch fuel s p hne (by omega)]
    rw [List.getElem?_cons_succ]
    rw [ih (s + 1) (fuel - 1) (p.drop 59) (by rw [List.length_drop]; omega)
      (by rw [List.length_drop]; omega)]
    rw [List.drop_drop, List.length_drop]
    have e1 : 59 + 59 * i = 59 * (i + 1) := by ring
    have e2 : s + 1 + i = s + (i + 1) := by omega
    have e3 : p.length - 59 - 59 * i = p.length - 59 * (i + 1) := by omega
    rw [e1, e2, e3]

theorem div59_step (L : Nat) (h : 1 ≤ L) : (L - 59 + 58) / 59 + 1 = (L + 58) / 59 := by
  rcases le_or_lt L 59 with hle | hgt
  · have h1 : L - 59 = 0 := by omega
    rw [h1]
    have h2 : (58 : Nat) / 59 = 0 := by norm_num
    have h3 : (L + 58) / 59 = 1 := by
      have hlo : 1 * 59 ≤ L + 58 := by omega
      have hhi : L + 58 < 2 * 59 := by omega
      omega
    rw [h2, h3]
  · have h4 : L - 59 + 58 + 59 = L + 58 := by omega
    rw [← h4, Nat.add_div_right _ (by norm_num)]

theorem contPacketsFuel_length (ch : Nat) :
    ∀ (fuel s : Nat) (p : List Nat), p.length ≤ fuel →
      (contPacketsFuel ch fuel s p).length = (p.length + 58) / 59 := by
  intro fuel
  induction fuel with
  | zero =>
    intro s p hf
    have hp : p = [] := List.eq_nil_of_length_eq_zero (by omega)
    rw [hp, contPacketsFuel_nil]
    norm_num
  | succ f ih =>
    intro s p hf
    rcases hp : p with _ | ⟨x, xs⟩
    · rw [contPacketsFuel_nil]
      norm_num
    · rw [contPacketsFuel_cons ch (f + 1) s (x :: xs) (by simp) (by omega)]
      rw [List.length_cons]
      rw [show f + 1 - 1 = f from rfl]
      rw [ih (s + 1) ((x :: xs).drop 59)
        (by rw [List.length_drop]; rw [hp] at hf; simp at hf ⊢; omega)]
      rw [List.length_drop]
      exact div59_step (x :: xs).length (by simp)

theorem contPacketsFuel_mem (ch : Nat) :
    ∀ (fuel s : Nat) (p : List Nat), ∀ pk ∈ contPacketsFuel ch fuel s p, pk.length = 64 := by
  intro fuel
  induction fuel with
  | zero =>
    intro s p pk h
    cases p <;> simp [contPacketsFuel_nil, contPacketsFuel] at h
  | succ f ih =>
    intro s p pk h
    rcases p with _ | ⟨x, xs⟩
    · rw [contPacketsFuel_nil] at h
      simp at h
    · rw [contPacketsFuel_cons ch (f + 1) s (x :: xs) (by simp) (by omega)] at h
      rcases List.mem_cons.mp h with h1 | h2

      · rw [h1]
        simp only [pad, List.length_append, List.length_take, List.length_replicate,
          CTAPHIDSERVER_MAX_PACKET_SIZE]
        have : (toLE32 ch).length = 4 := by simp [toLE32]
        simp [this]
        omega
      · exact ih (s + 1) ((x :: xs).drop 59) pk h2

theorem createResponsePackets_cons (ch cmd : Nat) (p : List Nat) (hne : p ≠ []) :
    createResponsePackets ch cmd p =
      pad (newCTAPHIDMessageHeader ch cmd p.length ++ p.take 57) CTAPHIDSERVER_MAX_PACKET_SIZE ::
        contPacketsFuel ch p.length 0 (p.drop 57) := by
  rcases p with _ | ⟨x, xs⟩
  · exact absurd rfl hne
  · simp only [createResponsePackets]
    have h7 : (newCTAPHIDMessageHeader ch cmd (x :: xs).length).length = 7 := by
      simp [newCTAPHIDMessageHeader, toLE32, toBE16]
    rw [h7]
    norm_num [CTAPHIDSERVER_MAX_PACKET_SIZE]
    rw [show (57 : Nat) ⊓ (xs.length + 1) = min 57 (x :: xs).length by simp,
      take_min_length, drop_min_length]
    exact ⟨rfl, rfl⟩

/-! Claim theorems. -/

/-- Claim C1: the claim says a finalized message whose command is not
supported on its channel kind is answered with an InvalidCommand ERROR
packet and does not crash the server; the code instead takes the
`panic(...)` default branch of `handleBroadcastMessage` /
`handleDataMessage`, so the dispatcher aborts rather than returning an
ERROR packet.  This theorem evaluates the code on every such message. -/
theorem claim1_unsupported_command_panics (u2f ctap : List Nat → List Nat)
    (server : CTAPHIDServer) (channel : CTAPHIDChannel) (header : CTAPHIDMessageHeader)
    (payload : GoSlice)
    (h : (channel.channelId = CTAPHID_BROADCAST_CHANNEL ∧
            header.Command ≠ CTAPHID_COMMAND_INIT ∧ header.Command ≠ CTAPHID_COMMAND_PING) ∨
         (channel.channelId ≠ CTAPHID_BROADCAST_CHANNEL ∧
            header.Command ≠ CTAPHID_COMMAND_MSG ∧ header.Command ≠ CTAPHID_COMMAND_CBOR ∧
            header.Command ≠ CTAPHID_COMMAND_PING)) :
    handleFinalizedMessage u2f ctap server channel header payload =
      .error (if channel.channelId = CTAPHID_BROADCAST_CHANNEL then
                .invalidBroadcastCommand header
              else
                .invalidChannelCommand header) := by
  rcases h with ⟨hb, h1, h2⟩ | ⟨hb, h1, h2, h3⟩
  · simp [handleFinalizedMessage, handleBroadcastMessage, hb, h1, h2]
  · simp [handleFinalizedMessage, handleDataMessage, hb, h1, h2, h3]

/-- Witness for C1: the WINK command finalized on the broadcast channel
makes the dispatcher panic. -/
theorem claim1_unsupported_command_panics_witness :
    ((NewCTAPHIDChannel CTAPHID_BROADCAST_CHANNEL).channelId = CTAPHID_BROADCAST_CHANNEL ∧
       CTAPHID_COMMAND_WINK ≠ CTAPHID_COMMAND_INIT ∧
       CTAPHID_COMMAND_WINK ≠ CTAPHID_COMMAND_PING) ∧
    handleFinalizedMessage u2fStub ctapStub newCTAPHIDServer
        (NewCTAPHIDChannel CTAPHID_BROADCAST_CHANNEL)
        ⟨CTAPHID_BROADCAST_CHANNEL, CTAPHID_COMMAND_WINK, 0⟩ (GoSlice.ofList []) =
      .error (if (NewCTAPHIDChannel CTAPHID_BROADCAST_CHANNEL).channelId =
                  CTAPHID_BROADCAST_CHANNEL then
                .invalidBroadcastCommand ⟨CTAPHID_BROADCAST_CHANNEL, CTAPHID_COMMAND_WINK, 0⟩
              else
                .invalidChannelCommand ⟨CTAPHID_BROADCAST_CHANNEL, CTAPHID_COMMAND_WINK, 0⟩) :=
  ⟨by decide,
   claim1_unsupported_command_panics u2fStub ctapStub newCTAPHIDServer
     (NewCTAPHIDChannel CTAPHID_BROADCAST_CHANNEL)
     ⟨CTAPHID_BROADCAST_CHANNEL, CTAPHID_COMMAND_WINK, 0⟩ (GoSlice.ofList [])
     (Or.inl (by decide))⟩

/-- Claim C3: the claim says feeding the packets of
`createResponsePackets` back through an Idle channel reassembles the
original payload byte for byte for every payload length, 64 among them.
The code violates this: for a 64-byte payload the two emitted packets
reassemble to 116 bytes (the payload followed by 52 zero-padding bytes
of the continuation packet), because finalization appends the whole
59-byte continuation slice without truncating to the declared length. -/
theorem claim3_roundtrip_fails_at_length_64 :
    ((feedPacketsFinalized (NewCTAPHIDChannel 1)
        (createResponsePackets 1 CTAPHID_COMMAND_PING (List.replicate 64 7))).2.map
        (fun m => m.2.visible) =
      [List.replicate 64 7 ++ List.replicate 52 0]) ∧
    List.replicate 64 7 ++ List.replicate 52 0 ≠ List.replicate 64 7 := by
  constructor
  · decide
  · decide

/-- Claim C4: the claim says the channel truncates the assembled buffer
to exactly the declared `payloadLength` before finalizing.  The code's
continuation branch appends the whole 59-byte continuation slice and
finalizes without truncation: a message declaring 58 payload bytes is
handed to the dispatcher with 116 bytes. -/
theorem claim4_finalize_skips_truncation :
    (feedPacketsFinalized (NewCTAPHIDChannel 1)
        (createResponsePackets 1 CTAPHID_COMMAND_PING (List.replicate 58 1))).2.map
        (fun m => (m.1.PayloadLength, m.2.len)) = [(58, 116)] := by
  decide

/-- Claim C6: every packet emitted by `createResponsePackets` is
exactly 64 bytes and zero-padded; the first packet is the 4-byte
little-endian channel id, the command byte, the 2-byte big-endian
payload length and the first payload chunk; continuation packet `i`
(0-based) is the 4-byte little-endian channel id, the 1-byte sequence
number `i % 256` (the Go `uint8` cast of the incrementing counter) and
the next payload chunk.  The packet count pins down that no other
packets exist. -/
theorem claim6_packet_layout (ch cmd : Nat) (p : List Nat)
    (hne : p ≠ []) (hlen : p.length < 65536) (hcmd : cmd < 256) :
    (∀ pk ∈ createResponsePackets ch cmd p, pk.length = 64) ∧
    (createResponsePackets ch cmd p).length = 1 + (p.length - 57 + 58) / 59 ∧
    (createResponsePackets ch cmd p)[0]? =
      some (toLE32 ch ++ [cmd] ++ toBE16 p.length ++ p.take 57 ++
        List.replicate (64 - (7 + min 57 p.length)) 0) ∧
    (∀ i, 57 + 59 * i < p.length →
      (createResponsePackets ch cmd p)[i + 1]? =
        some (toLE32 ch ++ [i % 256] ++ (p.drop (57 + 59 * i)).take 59 ++
          List.replicate (64 - (5 + min 59 (p.length - (57 + 59 * i)))) 0)) := by
  rw [createResponsePackets_cons ch cmd p hne]
  have hdrop : (p.drop 57).length = p.length - 57 := List.length_drop 57 p
  refine ⟨?_, ?_, ?_, ?_⟩
  · intro pk hpk
    rcases List.mem_cons.mp hpk with h1 | h2
    · rw [h1]
      simp only [pad, List.length_append, List.length_take, List.length_replicate,
        CTAPHIDSERVER_MAX_PACKET_SIZE]
      have h7 : (newCTAPHIDMessageHeader ch cmd p.length).length = 7 := by
        simp [newCTAPHIDMessageHeader, toLE32, toBE16]
      rw [h7]
      omega
    · exact contPacketsFuel_mem ch p.length 0 (p.drop 57) pk h2
  · rw [List.length_cons, contPacketsFuel_length ch p.length 0 (p.drop 57) (by omega), hdrop]
    omega
  · rw [List.getElem?_cons_zero]
    congr 1
    simp only [pad, newCTAPHIDMessageHeader, toBE16, CTAPHIDSERVER_MAX_PACKET_SIZE]
    rw [Nat.mod_eq_of_lt hcmd, Nat.mod_eq_of_lt hlen]
    simp [toLE32, List.append_assoc]
    omega
  · intro i hi
    rw [List.getElem?_cons_succ]
    rw [contPacketsFuel_getElem ch i 0 p.length (p.drop 57) (by omega)
      (by rw [hdrop]; omega)]
    rw [List.drop_drop, hdrop]
    have e2 : 0 + i = i := by omega
    have e3 : p.length - 57 - 59 * i = p.length - (57 + 59 * i) := by omega
    rw [e2, e3]

/-- Witness for C6: a 120-byte payload on channel 1 with command CBOR
fragments into an initial packet and two continuation packets of the
stated layout. -/
theorem claim6_packet_layout_witness :
    ((List.replicate 120 3 : List Nat) ≠ [] ∧
      (List.replicate 120 3 : List Nat).length < 65536 ∧
      CTAPHID_COMMAND_CBOR < 256) ∧
    ((∀ pk ∈ createResponsePackets 1 CTAPHID_COMMAND_CBOR (List.replicate 120 3),
        pk.length = 64) ∧
      (createResponsePackets 1 CTAPHID_COMMAND_CBOR (List.replicate 120 3)).length =
        1 + ((List.replicate 120 3 : List Nat).length - 57 + 58) / 59 ∧
      (createResponsePackets 1 CTAPHID_COMMAND_CBOR (List.replicate 120 3))[0]? =
        some (toLE32 1 ++ [CTAPHID_COMMAND_CBOR] ++
          toBE16 (List.replicate 120 3 : List Nat).length ++
          (List.replicate 120 3 : List Nat).take 57 ++
          List.replicate (64 - (7 + min 57 (List.replicate 120 3 : List Nat).length)) 0) ∧
      (∀ i, 57 + 59 * i < (List.replicate 120 3 : List Nat).length →
        (createResponsePackets 1 CTAPHID_COMMAND_CBOR (List.replicate 120 3))[i + 1]? =
          some (toLE32 1 ++ [i % 256] ++
            ((List.replicate 120 3 : List Nat).drop (57 + 59 * i)).take 59 ++
            List.replicate
              (64 - (5 + min 59 ((List.replicate 120 3 : List Nat).length - (57 + 59 * i))))
              0))) :=
  ⟨⟨by decide, by decide, by decide⟩,
   claim6_packet_layout 1 CTAPHID_COMMAND_CBOR (List.replicate 120 3)
     (by decide) (by decide) (by decide)⟩

/-- Claim C7 counterexample: the claim says a zero-length payload still
emits exactly one packet when the message requires an explicit response,
an empty PING echo among them.  The code's packet loop runs only while
payload bytes remain, so the empty PING echo on a data channel produces
zero packets. -/
theorem claim7_counterexample :
    handleDataMessage u2fStub ctapStub newCTAPHIDServer ⟨1, CTAPHID_COMMAND_PING, 0⟩
        (GoSlice.ofList []) = .ok (newCTAPHIDServer, []) := rfl

/-- Claim C7 as amended: encoding a message with a zero-length payload
emits no packets, whether or not the message calls for a response. -/
theorem claim7_amended_empty_payload_no_packets (channelId command : Nat) :
    createResponsePackets channelId command [] = [] := rfl

/-- Claim C8: the claim says that after `getResponse` returns through
the response-delivery branch, the kill-switch entry stored under its id
has been removed from `waitingForResponses`.  The code deletes the
entry only in the kill-switch branch; the delivery branch returns with
the entry still stored, so the stale entry survives. -/
theorem claim8_delivery_branch_leaks_entry (server : CTAPHIDServer) (id : Nat)
    (r : List Nat) (rest : List (List Nat)) (h : server.responses = r :: rest) :
    server.getResponseViaDelivery id =
      some (r, { server with
                   responses := rest,
                   waitingForResponses := storeWaiting server.waitingForResponses id }) ∧
    id ∈ storeWaiting server.waitingForResponses id := by
  refine ⟨?_, mem_storeWaiting _ _⟩
  simp [CTAPHIDServer.getResponseViaDelivery, h]

/-- Witness for C8: a waiter with id 5 on a server holding one queued
response resolves through the delivery branch and leaves id 5 stored. -/
theorem claim8_delivery_branch_leaks_entry_witness :
    (CTAPHIDServer.getResponseViaDelivery ⟨0, [], [[1, 2, 3]], []⟩ 5 =
      some ([1, 2, 3],
        { (⟨0, [], [[1, 2, 3]], []⟩ : CTAPHIDServer) with
            responses := [],
            waitingForResponses := storeWaiting [] 5 }) ∧
      5 ∈ storeWaiting [] 5) :=
  claim8_delivery_branch_leaks_entry ⟨0, [], [[1, 2, 3]], []⟩ 5 [1, 2, 3] [] rfl

/-- Claim C9: the claim says a waiter in `getResponse` is only ever
satisfied by the response of its own logical request.  The code takes
whatever packet is at the head of the single shared `responses` queue:
here the waiter with correlation key 1 receives the response packet
generated for channel 2 (its header channel id reads back as 2). -/
theorem claim9_shared_queue_crosstalk :
    (((newCTAPHIDServer.sendResponse
          (createResponsePackets 2 CTAPHID_COMMAND_CBOR [0x42])).getResponseViaDelivery 1).map
        (fun x => readLE32 x.1) = some 2) ∧ (2 : Nat) ≠ 1 := by
  constructor
  · decide
  · decide

/-- Claim C2: a raw report whose leading 4-byte little-endian channel
id is not in the channel table is answered with exactly one ERROR
packet carrying code InvalidChannel (0x0B) and the same channel id in
its header; the handler returns normally and leaves the channel table,
the allocation counter and the waiting set untouched, so subsequent
reports are processed as before. -/
theorem claim2_unknown_channel_error (u2f ctap : List Nat → List Nat)
    (server : CTAPHIDServer) (message : List Nat)
    (hlen : message.length = 64) (hbytes : ∀ b ∈ message, b < 256)
    (habs : lookupChannel server.channels (readLE32 message) = none) :
    CTAPHIDServer.handleMessage u2f ctap server message =
      .ok { server with
              responses := server.responses ++
                [toLE32 (readLE32 message) ++ [0xBF, 0, 1, 0x0B] ++ List.replicate 56 0] } ∧
    toLE32 (readLE32 message) = message.take 4 := by
  constructor
  · simp only [CTAPHIDServer.handleMessage, habs]
    rw [ctapHidError_eq]
    simp [CTAPHIDServer.sendResponse, CTAPHID_ERR_INVALID_CHANNEL]
  · match message, hlen with
    | b0 :: b1 :: b2 :: b3 :: t, _ =>
      have h0 : b0 < 256 := hbytes b0 (by simp)
      have h1 : b1 < 256 := hbytes b1 (by simp)
      have h2 : b2 < 256 := hbytes b2 (by simp)
      have h3 : b3 < 256 := hbytes b3 (by simp)
      simp only [readLE32, toLE32, List.getD_cons_zero, List.getD_cons_succ,
        List.take_succ_cons, List.take_zero, List.cons.injEq, and_true]
      refine ⟨by omega, by omega, by omega, by omega⟩

/-- Witness for C2: on a fresh server (which only holds the broadcast
channel) a report addressed to the unallocated channel 1 draws the
single InvalidChannel ERROR packet. -/
theorem claim2_unknown_channel_error_witness :
    (([1, 0, 0, 0] ++ List.replicate 60 0 : List Nat).length = 64 ∧
      (∀ b ∈ ([1, 0, 0, 0] ++ List.replicate 60 0 : List Nat), b < 256) ∧
      lookupChannel newCTAPHIDServer.channels
        (readLE32 ([1, 0, 0, 0] ++ List.replicate 60 0)) = none) ∧
    (CTAPHIDServer.handleMessage u2fStub ctapStub newCTAPHIDServer
        ([1, 0, 0, 0] ++ List.replicate 60 0) =
      .ok { newCTAPHIDServer with
              responses := newCTAPHIDServer.responses ++
                [toLE32 (readLE32 ([1, 0, 0, 0] ++ List.replicate 60 0)) ++
                  [0xBF, 0, 1, 0x0B] ++ List.replicate 56 0] } ∧
      toLE32 (readLE32 ([1, 0, 0, 0] ++ List.replicate 60 0)) =
        ([1, 0, 0, 0] ++ List.replicate 60 0 : List Nat).take 4) :=
  ⟨⟨by decide, by decide, by decide⟩,
   claim2_unknown_channel_error u2fStub ctapStub newCTAPHIDServer
     ([1, 0, 0, 0] ++ List.replicate 60 0) (by decide) (by decide) (by decide)⟩

/-- Claim C5: an INIT finalized on the broadcast channel allocates
channel id `maxChannelID + 1` (the first allocation on a fresh server,
where `maxChannelID = 0`, yields 1), registers fresh Channel state for
that id, and responds with an init payload whose first 8 bytes echo the
request nonce, followed by the 4-byte little-endian new channel id and
protocol version 2. -/
theorem claim5_init_allocates_next_id_and_echoes_nonce (server : CTAPHIDServer)
    (header : CTAPHIDMessageHeader) (payload : GoSlice)
    (hcmd : header.Command = CTAPHID_COMMAND_INIT)
    (h8 : 8 ≤ payload.len) (hwf : payload.len ≤ payload.data.length)
    (hover : server.maxChannelID + 1 < 2 ^ 32) :
    handleBroadcastMessage server header payload =
      .ok ({ server with
               maxChannelID := server.maxChannelID + 1,
               channels := insertChannel server.channels (server.maxChannelID + 1)
                 (NewCTAPHIDChannel (server.maxChannelID + 1)) },
           createResponsePackets CTAPHID_BROADCAST_CHANNEL CTAPHID_COMMAND_INIT
             (payload.visible.take 8 ++ toLE32 (server.maxChannelID + 1) ++ [2, 0, 0, 1, 0])) ∧
    lookupChannel (insertChannel server.channels (server.maxChannelID + 1)
        (NewCTAPHIDChannel (server.maxChannelID + 1))) (server.maxChannelID + 1) =
      some (NewCTAPHIDChannel (server.maxChannelID + 1)) ∧
    (payload.visible.take 8 ++ toLE32 (server.maxChannelID + 1) ++ [2, 0, 0, 1, 0]).take 8 =
      payload.visible.take 8 := by
  have hcap : 8 ≤ payload.data.length := le_trans h8 hwf
  have hvis : payload.visible.take 8 = payload.data.take 8 := by
    rw [GoSlice.visible, List.take_take]
    congr 1
    omega
  have hmod : (server.maxChannelID + 1) % 2 ^ 32 = server.maxChannelID + 1 :=
    Nat.mod_eq_of_lt hover
  refine ⟨?_, lookupChannel_insertChannel _ _ _, ?_⟩
  · simp only [handleBroadcastMessage, hcmd, if_pos, GoSlice.reslice, if_pos hcap, hmod]
    rw [show (GoSlice.mk payload.data 8).visible = payload.data.take 8 from rfl, ← hvis]
  · rw [List.append_assoc]
    refine List.take_left' ?_
    rw [List.length_take, GoSlice.visible, List.length_take]
    omega

/-- Witness for C5: the first INIT on a fresh server allocates channel
id 1 and echoes the 8-byte nonce 1..8. -/
theorem claim5_init_allocates_next_id_and_echoes_nonce_witness :
    ((⟨CTAPHID_BROADCAST_CHANNEL, CTAPHID_COMMAND_INIT, 8⟩ :
        CTAPHIDMessageHeader).Command = CTAPHID_COMMAND_INIT ∧
      8 ≤ (GoSlice.mk ([1, 2, 3, 4, 5, 6, 7, 8] ++ List.replicate 49 0) 8).len ∧
      (GoSlice.mk ([1, 2, 3, 4, 5, 6, 7, 8] ++ List.replicate 49 0) 8).len ≤
        (GoSlice.mk ([1, 2, 3, 4, 5, 6, 7, 8] ++ List.replicate 49 0) 8).data.length ∧
      newCTAPHIDServer.maxChannelID + 1 < 2 ^ 32) ∧
    (handleBroadcastMessage newCTAPHIDServer
        ⟨CTAPHID_BROADCAST_CHANNEL, CTAPHID_COMMAND_INIT, 8⟩
        (GoSlice.mk ([1, 2, 3, 4, 5, 6, 7, 8] ++ List.replicate 49 0) 8) =
      .ok ({ newCTAPHIDServer with
               maxChannelID := newCTAPHIDServer.maxChannelID + 1,
               channels := insertChannel newCTAPHIDServer.channels
                 (newCTAPHIDServer.maxChannelID + 1)
                 (NewCTAPHIDChannel (newCTAPHIDServer.maxChannelID + 1)) },
           createResponsePackets CTAPHID_BROADCAST_CHANNEL CTAPHID_COMMAND_INIT
             ((GoSlice.mk ([1, 2, 3, 4, 5, 6, 7, 8] ++ List.replicate 49 0) 8).visible.take 8 ++
               toLE32 (newCTAPHIDServer.maxChannelID + 1) ++ [2, 0, 0, 1, 0])) ∧
      lookupChannel (insertChannel newCTAPHIDServer.channels
          (newCTAPHIDServer.maxChannelID + 1)
          (NewCTAPHIDChannel (newCTAPHIDServer.maxChannelID + 1)))
          (newCTAPHIDServer.maxChannelID + 1) =
        some (NewCTAPHIDChannel (newCTAPHIDServer.maxChannelID + 1)) ∧
      ((GoSlice.mk ([1, 2, 3, 4, 5, 6, 7, 8] ++ List.replicate 49 0) 8).visible.take 8 ++
          toLE32 (newCTAPHIDServer.maxChannelID + 1) ++ [2, 0, 0, 1, 0]).take 8 =
        (GoSlice.mk ([1, 2, 3, 4, 5, 6, 7, 8] ++ List.replicate 49 0) 8).visible.take 8) :=
  ⟨⟨by decide, by decide, by decide, by decide⟩,
   claim5_init_allocates_next_id_and_echoes_nonce newCTAPHIDServer
     ⟨CTAPHID_BROADCAST_CHANNEL, CTAPHID_COMMAND_INIT, 8⟩
     (GoSlice.mk ([1, 2, 3, 4, 5, 6, 7, 8] ++ List.replicate 49 0) 8)
     (by decide) (by decide) (by decide) (by decide)⟩

/-- Claim C10 counterexample: the claim says a broadcast INIT whose
declared payload length is under 8 reaches an out-of-bounds slice
access and panics.  In Go, `payload[:8]` re-slices against the 57-byte
capacity of the report's payload region, not the declared length, so
the whole pipeline returns normally on such a report (declared length
0 here) instead of panicking. -/
theorem claim10_counterexample :
    (CTAPHIDServer.handleMessage u2fStub ctapStub newCTAPHIDServer
        (toLE32 CTAPHID_BROADCAST_CHANNEL ++ [0x86, 0, 0] ++
          List.replicate 57 0)).toOption.isSome = true := by
  decide

/-- Claim C10 as amended: a broadcast INIT initial packet whose
declared payload length is under 8 does not reach an out-of-bounds
access.  The finalized payload keeps the 57-byte backing of
`message[7:]`, so `payload[:8]` re-slices within capacity: the handler
returns normally and echoes as nonce the first 8 bytes of the report's
payload region, beyond the declared payload length. -/
theorem claim10_amended_short_init_no_panic (u2f ctap : List Nat → List Nat)
    (server : CTAPHIDServer) (message : List Nat)
    (hlen : message.length = 64) (hcmd : message.getD 4 0 = CTAPHID_COMMAND_INIT)
    (hpl : 256 * message.getD 5 0 + message.getD 6 0 < 8) :
    CTAPHIDChannel.handleMessage u2f ctap server
        (NewCTAPHIDChannel CTAPHID_BROADCAST_CHANNEL) message =
      .ok ({ server with
               maxChannelID := (server.maxChannelID + 1) % 2 ^ 32,
               channels := insertChannel server.channels ((server.maxChannelID + 1) % 2 ^ 32)
                 (NewCTAPHIDChannel ((server.maxChannelID + 1) % 2 ^ 32)) },
           NewCTAPHIDChannel CTAPHID_BROADCAST_CHANNEL,
           some (createResponsePackets CTAPHID_BROADCAST_CHANNEL CTAPHID_COMMAND_INIT
             ((message.drop 7).take 8 ++ toLE32 ((server.maxChannelID + 1) % 2 ^ 32) ++
               [2, 0, 0, 1, 0]))) := by
  have h57 : (message.drop 7).length = 57 := by rw [List.length_drop, hlen]
  simp only [CTAPHIDChannel.handleMessage, CTAPHIDChannel.processPacket, NewCTAPHIDChannel]
  rw [if_neg (by rw [h57]; omega :
    ¬ 256 * message.getD 5 0 + message.getD 6 0 > (message.drop 7).length)]
  simp only [handleFinalizedMessage, if_pos, handleBroadcastMessage, hcmd,
    GoSlice.reslice]
  rw [if_pos (by rw [h57]; omega : 8 ≤ (message.drop 7).length)]
  rfl

/-- Witness for amended C10: a broadcast INIT report declaring payload
length 0 with nonce bytes 9..16 sitting in its (padding) payload
region is handled without a panic and echoes those bytes. -/
theorem claim10_amended_short_init_no_panic_witness :
    ((toLE32 CTAPHID_BROADCAST_CHANNEL ++ [0x86, 0, 0] ++ [9, 10, 11, 12, 13, 14, 15, 16] ++
        List.replicate 49 0 : List Nat).length = 64 ∧
      (toLE32 CTAPHID_BROADCAST_CHANNEL ++ [0x86, 0, 0] ++ [9, 10, 11, 12, 13, 14, 15, 16] ++
        List.replicate 49 0 : List Nat).getD 4 0 = CTAPHID_COMMAND_INIT ∧
      256 * (toLE32 CTAPHID_BROADCAST_CHANNEL ++ [0x86, 0, 0] ++
          [9, 10, 11, 12, 13, 14, 15, 16] ++ List.replicate 49 0 : List Nat).getD 5 0 +
        (toLE32 CTAPHID_BROADCAST_CHANNEL ++ [0x86, 0, 0] ++ [9, 10, 11, 12, 13, 14, 15, 16] ++
          List.replicate 49 0 : List Nat).getD 6 0 < 8) ∧
    CTAPHIDChannel.handleMessage u2fStub ctapStub newCTAPHIDServer
        (NewCTAPHIDChannel CTAPHID_BROADCAST_CHANNEL)
        (toLE32 CTAPHID_BROADCAST_CHANNEL ++ [0x86, 0, 0] ++ [9, 10, 11, 12, 13, 14, 15, 16] ++
          List.replicate 49 0) =
      .ok ({ newCTAPHIDServer with
               maxChannelID := (newCTAPHIDServer.maxChannelID + 1) % 2 ^ 32,
               channels := insertChannel newCTAPHIDServer.channels
                 ((newCTAPHIDServer.maxChannelID + 1) % 2 ^ 32)
                 (NewCTAPHIDChannel ((newCTAPHIDServer.maxChannelID + 1) % 2 ^ 32)) },
           NewCTAPHIDChannel CTAPHID_BROADCAST_CHANNEL,
           some (createResponsePackets CTAPHID_BROADCAST_CHANNEL CTAPHID_COMMAND_INIT
             (((toLE32 CTAPHID_BROADCAST_CHANNEL ++ [0x86, 0, 0] ++
                   [9, 10, 11, 12, 13, 14, 15, 16] ++ List.replicate 49 0 : List Nat).drop
                 7).take 8 ++
               toLE32 ((newCTAPHIDServer.maxChannelID + 1) % 2 ^ 32) ++ [2, 0, 0, 1, 0]))) :=
  ⟨⟨by decide, by decide, by decide⟩,
   claim10_amended_short_init_no_panic u2fStub ctapStub newCTAPHIDServer
     (toLE32 CTAPHID_BROADCAST_CHANNEL ++ [0x86, 0, 0] ++ [9, 10, 11, 12, 13, 14, 15, 16] ++
       List.replicate 49 0)
     (by decide) (by decide) (by decide)⟩

end VirtualFido
